import Mathlib

/-!
Verification of the TradingView webhook proxy (src/app.py) against its
natural-language specification.  The development shallowly embeds the
/webhook request handler (app.py lines 170-397): Python values are the
inductive type PyVal, machine floats are modelled as rationals, raised
exceptions are Except errors, and the storage collaborator is a parameter
describing how the single INSERT of this request behaves.

Note on fidelity: the committed app.py is not valid Python.  The block
introduced at line 210 reads "try:" but no matching except or finally
clause follows it, so the interpreter rejects the file with a SyntaxError
reported at line 263.  The embedding models the evident intended control
flow: an exception raised inside the raw-text extraction block propagates
to the outermost handler (line 387), which answers with a structured
HTTP 500 response.
-/

namespace TVProxy

/-- Python runtime values as they occur in the webhook handler: the results
of json.loads, the form-field dictionary, and the regex extraction
dictionary.  Python int and float are both modelled as rationals. -/
inductive PyVal where
  | none
  | bool (b : Bool)
  | num (q : ℚ)
  | str (s : String)
  | list (xs : List PyVal)
  | dict (kvs : List (String × PyVal))

/-- Key lookup in a Python dict represented by its insertion sequence: a
later binding of the same key overwrites an earlier one, so the last
binding wins (this also matches json.loads on duplicate object keys). -/
def lookupLast (kvs : List (String × PyVal)) (k : String) : Option PyVal :=
  match kvs with
  | [] => Option.none
  | (k₀, v) :: rest =>
    match lookupLast rest k with
    | Option.some w => Option.some w
    | Option.none => if k₀ = k then Option.some v else Option.none

/-- Python truthiness, as used by the checks "if not data:" in the
handler. -/
def pyTruthy : PyVal → Bool
  | .none => false
  | .bool b => b
  | .num q => decide (q ≠ 0)
  | .str s => !s.isEmpty
  | .list xs => !xs.isEmpty
  | .dict kvs => !kvs.isEmpty

/-- Python str(x) for the values the handler can feed to it.  The handler
only ever stringifies the symbol and signal entries, which in every claim
are strings or None; the numeric case is exact for integers and the
container cases are placeholders that no verified path reaches. -/
def pyStr : PyVal → String
  | .none => "None"
  | .bool true => "True"
  | .bool false => "False"
  | .str s => s
  | .num q => if q.den = 1 then toString q.num else toString q
  | .list _ => "[...]"
  | .dict _ => "[...]"

/-- Numeric value of a list of decimal digit characters. -/
def digitsVal (ds : List Char) : ℕ :=
  ds.foldl (fun a c => 10 * a + (c.toNat - 48)) 0

/-- Whitespace stripped by str.strip() and accepted by float() (ASCII
fragment of the Python whitespace classes). -/
def pySpace (c : Char) : Bool :=
  c == ' ' || c == '\t' || c == '\n' || c == '\r' || c == '\x0c' || c == '\x0b'

/-- Exponent suffix of a Python float literal: empty, or e or E followed by
an optional sign and one or more digits, consuming the whole rest.  The
result is the sign of the exponent and its magnitude. -/
def pyExpSuffix : List Char → Option (Bool × ℕ)
  | [] => Option.some (false, 0)
  | e :: r₁ =>
    if e == 'e' || e == 'E' then
      let sr : Bool × List Char :=
        match r₁ with
        | '-' :: t => (true, t)
        | '+' :: t => (false, t)
        | t => (false, t)
      let ed := sr.2.takeWhile Char.isDigit
      let r₂ := sr.2.dropWhile Char.isDigit
      if ed.isEmpty || !r₂.isEmpty then Option.none
      else Option.some (sr.1, digitsVal ed)
    else Option.none

/-- Assemble the rational value of a parsed decimal literal from its sign,
mantissa numerator and denominator, and exponent suffix. -/
def decimalValue (neg : Bool) (n d : ℕ) (r : List Char) : Option ℚ :=
  match pyExpSuffix r with
  | Option.none => Option.none
  | Option.some (eneg, e) =>
    let n₁ := if eneg then n else n * 10 ^ e
    let d₁ := if eneg then d * 10 ^ e else d
    Option.some (mkRat (if neg then -(Int.ofNat n₁) else Int.ofNat n₁) d₁)

/-- Python float(s) on a string: optional surrounding whitespace, optional
sign, digits with an optional decimal point (digits required on at least
one side) and an optional exponent.  Option.none models the raised
ValueError.  The inf and nan spellings and digit underscores are not
modelled; no claim depends on them. -/
def pyFloatStr (s : String) : Option ℚ :=
  let cs := ((s.toList.dropWhile pySpace).reverse.dropWhile pySpace).reverse
  let sc : Bool × List Char :=
    match cs with
    | '-' :: r => (true, r)
    | '+' :: r => (false, r)
    | r => (false, r)
  let ip := sc.2.takeWhile Char.isDigit
  let r₁ := sc.2.dropWhile Char.isDigit
  match r₁ with
  | '.' :: r₂ =>
    let fp := r₂.takeWhile Char.isDigit
    let r₃ := r₂.dropWhile Char.isDigit
    if ip.isEmpty && fp.isEmpty then Option.none
    else decimalValue sc.1 (digitsVal ip * 10 ^ fp.length + digitsVal fp) (10 ^ fp.length) r₃
  | _ =>
    if ip.isEmpty then Option.none
    else decimalValue sc.1 (digitsVal ip) 1 r₁

/-- Python float(x) on an arbitrary value: numbers pass through, strings
are parsed, booleans coerce, and every other type raises (modelled as
Option.none, covering the TypeError on None, dict and list). -/
def pyFloat : PyVal → Option ℚ
  | .num q => Option.some q
  | .str s => pyFloatStr s
  | .bool b => Option.some (if b then 1 else 0)
  | _ => Option.none

/-- Whitespace accepted between JSON tokens by json.loads. -/
def jsonWs (c : Char) : Bool :=
  c == ' ' || c == '\t' || c == '\n' || c == '\r'

/-- Value of a hexadecimal digit character. -/
def hexVal (c : Char) : Option ℕ :=
  if '0' ≤ c ∧ c ≤ '9' then Option.some (c.toNat - 48)
  else if 'a' ≤ c ∧ c ≤ 'f' then Option.some (c.toNat - 87)
  else if 'A' ≤ c ∧ c ≤ 'F' then Option.some (c.toNat - 55)
  else Option.none

/-- Body of a JSON string literal after the opening quote: ordinary
characters, the standard backslash escapes and 4-digit unicode escapes, up
to the closing quote.  Unescaped control characters are rejected as in
strict json.loads; surrogate-pair combination is not modelled. -/
def parseStringBody (acc : List Char) : List Char → Option (String × List Char)
  | [] => Option.none
  | '"' :: rest => Option.some (acc.reverse.asString, rest)
  | '\\' :: esc =>
    match esc with
    | '"' :: r => parseStringBody ('"' :: acc) r
    | '\\' :: r => parseStringBody ('\\' :: acc) r
    | '/' :: r => parseStringBody ('/' :: acc) r
    | 'b' :: r => parseStringBody ('\x08' :: acc) r
    | 'f' :: r => parseStringBody ('\x0c' :: acc) r
    | 'n' :: r => parseStringBody ('\n' :: acc) r
    | 'r' :: r => parseStringBody ('\r' :: acc) r
    | 't' :: r => parseStringBody ('\t' :: acc) r
    | 'u' :: a :: b :: c :: d :: r =>
      match hexVal a, hexVal b, hexVal c, hexVal d with
      | Option.some x, Option.some y, Option.some z, Option.some w =>
        parseStringBody (Char.ofNat (4096 * x + 256 * y + 16 * z + w) :: acc) r
      | _, _, _, _ => Option.none
    | _ => Option.none
  | c :: rest =>
    if c.toNat < 32 then Option.none else parseStringBody (c :: acc) rest

/-- Exponent part of a JSON number: e or E, an optional sign, and one or
more digits, or nothing; the unconsumed rest is returned. -/
def jsonExpSuffix : List Char → Option (Bool × ℕ × List Char)
  | [] => Option.some (false, 0, [])
  | c :: r₁ =>
    if c == 'e' || c == 'E' then
      let sr : Bool × List Char :=
        match r₁ with
        | '-' :: t => (true, t)
        | '+' :: t => (false, t)
        | t => (false, t)
      let ed := sr.2.takeWhile Char.isDigit
      if ed.isEmpty then Option.none
      else Option.some (sr.1, digitsVal ed, sr.2.dropWhile Char.isDigit)
    else Option.some (false, 0, c :: r₁)

/-- A JSON number: optional minus, an integer part without leading zeros,
optional fraction and exponent. -/
def parseJsonNumber (cs : List Char) : Option (ℚ × List Char) :=
  let sc : Bool × List Char :=
    match cs with
    | '-' :: r => (true, r)
    | r => (false, r)
  let ip := sc.2.takeWhile Char.isDigit
  let r₁ := sc.2.dropWhile Char.isDigit
  if ip.isEmpty then Option.none
  else if 1 < ip.length ∧ ip.headD '0' = '0' then Option.none
  else
    let fr : Option (ℕ × ℕ × List Char) :=
      match r₁ with
      | '.' :: r₂ =>
        let fp := r₂.takeWhile Char.isDigit
        if fp.isEmpty then Option.none
        else
          Option.some
            (digitsVal ip * 10 ^ fp.length + digitsVal fp, 10 ^ fp.length,
              r₂.dropWhile Char.isDigit)
      | _ => Option.some (digitsVal ip, 1, r₁)
    match fr with
    | Option.none => Option.none
    | Option.some (n, d, r₂) =>
      match jsonExpSuffix r₂ with
      | Option.none => Option.none
      | Option.some (eneg, e, r₃) =>
        let n₁ := if eneg then n else n * 10 ^ e
        let d₁ := if eneg then d * 10 ^ e else d
        Option.some (mkRat (if sc.1 then -(Int.ofNat n₁) else Int.ofNat n₁) d₁, r₃)

mutual

/-- One JSON value at the head of the input (after optional whitespace),
following the json.loads grammar.  The fuel argument bounds the nesting;
jsonLoads supplies more than enough.  The NaN and Infinity extensions of
json.loads are not modelled; no claim touches them. -/
def parseVal : ℕ → List Char → Option (PyVal × List Char)
  | 0, _ => Option.none
  | Nat.succ fuel, cs =>
    match cs.dropWhile jsonWs with
    | [] => Option.none
    | 'n' :: 'u' :: 'l' :: 'l' :: r => Option.some (.none, r)
    | 't' :: 'r' :: 'u' :: 'e' :: r => Option.some (.bool true, r)
    | 'f' :: 'a' :: 'l' :: 's' :: 'e' :: r => Option.some (.bool false, r)
    | '"' :: r =>
      match parseStringBody [] r with
      | Option.some (s, r₁) => Option.some (.str s, r₁)
      | Option.none => Option.none
    | '[' :: r =>
      (match r.dropWhile jsonWs with
       | ']' :: r₁ => Option.some (.list [], r₁)
       | r₁ =>
         match parseElems fuel r₁ with
         | Option.some (xs, r₂) => Option.some (.list xs, r₂)
         | Option.none => Option.none)
    | '{' :: r =>
      (match r.dropWhile jsonWs with
       | '}' :: r₁ => Option.some (.dict [], r₁)
       | r₁ =>
         match parseMembers fuel r₁ with
         | Option.some (kvs, r₂) => Option.some (.dict kvs, r₂)
         | Option.none => Option.none)
    | c :: r =>
      match parseJsonNumber (c :: r) with
      | Option.some (q, r₁) => Option.some (.num q, r₁)
      | Option.none => Option.none

/-- Comma-separated array elements up to the closing bracket. -/
def parseElems : ℕ → List Char → Option (List PyVal × List Char)
  | 0, _ => Option.none
  | Nat.succ fuel, cs =>
    match parseVal fuel cs with
    | Option.none => Option.none
    | Option.some (v, r₁) =>
      match r₁.dropWhile jsonWs with
      | ',' :: r₂ =>
        match parseElems fuel r₂ with
        | Option.some (xs, r₃) => Option.some (v :: xs, r₃)
        | Option.none => Option.none
      | ']' :: r₂ => Option.some ([v], r₂)
      | _ => Option.none

/-- Comma-separated object members up to the closing brace. -/
def parseMembers : ℕ → List Char → Option (List (String × PyVal) × List Char)
  | 0, _ => Option.none
  | Nat.succ fuel, cs =>
    match cs.dropWhile jsonWs with
    | '"' :: r =>
      (match parseStringBody [] r with
       | Option.none => Option.none
       | Option.some (k, r₁) =>
         match r₁.dropWhile jsonWs with
         | ':' :: r₂ =>
           (match parseVal fuel r₂ with
            | Option.none => Option.none
            | Option.some (v, r₃) =>
              match r₃.dropWhile jsonWs with
              | ',' :: r₄ =>
                (match parseMembers fuel r₄ with
                 | Option.some (kvs, r₅) => Option.some ((k, v) :: kvs, r₅)
                 | Option.none => Option.none)
              | '}' :: r₄ => Option.some ([(k, v)], r₄)
              | _ => Option.none)
         | _ => Option.none)
    | _ => Option.none

end

/-- json.loads: parse one document and require that only whitespace
follows; Option.none models the raised ValueError. -/
def jsonLoads (s : String) : Option PyVal :=
  match parseVal (2 * s.length + 4) s.toList with
  | Option.some (v, rest) =>
    if (rest.dropWhile jsonWs).isEmpty then Option.some v else Option.none
  | Option.none => Option.none

/-- Drop an expected sequence of leading characters, or fail. -/
def dropLead : List Char → List Char → Option (List Char)
  | [], cs => Option.some cs
  | p :: ps, c :: cs => if p = c then dropLead ps cs else Option.none
  | _ :: _, [] => Option.none

/-- Contiguous-substring test, used for the Python membership operator on
strings. -/
def substrOf (p : List Char) (cs : List Char) : Bool :=
  match cs with
  | [] => p.isEmpty
  | _ :: rest => (dropLead p cs).isSome || substrOf p rest

/-- Leftmost regex search: try the matcher at every start position from
the left, as re.search does. -/
def searchFirst (m : List Char → Option String) : List Char → Option String
  | [] => m []
  | c :: rest =>
    match m (c :: rest) with
    | Option.some s => Option.some s
    | Option.none => searchFirst m (c :: rest).tail

/-- Matcher at one position for the pattern consisting of the quoted key,
a colon, optional whitespace and a quoted nonempty capture of non-quote
characters (the regex on app.py lines 232 and 242). -/
def matchQuotedStrField (key : String) (cs : List Char) : Option String :=
  match dropLead ('"' :: key.toList ++ ['"', ':']) cs with
  | Option.none => Option.none
  | Option.some r₁ =>
    match r₁.dropWhile pySpace with
    | '"' :: r₂ =>
      let cap := r₂.takeWhile (fun c => !(c == '"'))
      if cap.isEmpty then Option.none
      else
        match r₂.dropWhile (fun c => !(c == '"')) with
        | '"' :: _ => Option.some cap.asString
        | _ => Option.none
    | _ => Option.none

/-- Matcher at one position for the key, an equals sign and a nonempty
capture of characters that are neither ampersand nor whitespace (the
regex on app.py lines 237 and 246). -/
def matchKvStrField (key : String) (cs : List Char) : Option String :=
  match dropLead (key.toList ++ ['=']) cs with
  | Option.none => Option.none
  | Option.some r₁ =>
    let cap := r₁.takeWhile (fun c => !(c == '&') && !(pySpace c))
    if cap.isEmpty then Option.none else Option.some cap.asString

/-- Characters matched by the price capture class: digits and dots. -/
def numCapChar (c : Char) : Bool := c.isDigit || c == '.'

/-- Matcher at one position for the quoted key, a colon, optional
whitespace and a nonempty capture of digits and dots (the regex on
app.py line 251). -/
def matchQuotedNumField (key : String) (cs : List Char) : Option String :=
  match dropLead ('"' :: key.toList ++ ['"', ':']) cs with
  | Option.none => Option.none
  | Option.some r₁ =>
    let cap := (r₁.dropWhile pySpace).takeWhile numCapChar
    if cap.isEmpty then Option.none else Option.some cap.asString

/-- Matcher at one position for the key, an equals sign and a nonempty
capture of digits and dots (the regex on app.py line 255). -/
def matchKvNumField (key : String) (cs : List Char) : Option String :=
  match dropLead (key.toList ++ ['=']) cs with
  | Option.none => Option.none
  | Option.some r₁ =>
    let cap := r₁.takeWhile numCapChar
    if cap.isEmpty then Option.none else Option.some cap.asString

/-- The greedy dotall brace search of app.py line 220: the substring from
the first opening brace to the last closing brace after it, if any. -/
def braceSub (cs : List Char) : Option (List Char) :=
  match cs.findIdx? (fun c => c == '{') with
  | Option.none => Option.none
  | Option.some i =>
    let tl := cs.drop i
    match tl.reverse.findIdx? (fun c => c == '}') with
    | Option.none => Option.none
    | Option.some rj =>
      let j := tl.length - 1 - rj
      if 1 ≤ j then Option.some (tl.take (j + 1)) else Option.none

/-- Last-resort field extraction from free text (app.py lines 229-260):
for symbol and signal, the quoted-JSON-style regex first and the
key-equals-value regex second; for price likewise, with float() applied
to the captured digits-and-dots run.  Except.error models the ValueError
that float() raises when that run is not a float literal, for example a
run of dots: the enclosing block (line 210) was evidently meant to catch
it, but its try statement has no except clause (the committed file is a
Python SyntaxError), so the model lets it escape to the outer handler. -/
def regexExtract (cs : List Char) : Except Unit PyVal :=
  let symKvs : List (String × PyVal) :=
    match searchFirst (matchQuotedStrField "symbol") cs with
    | Option.some s => [("symbol", .str s)]
    | Option.none =>
      match searchFirst (matchKvStrField "symbol") cs with
      | Option.some s => [("symbol", .str s)]
      | Option.none => []
  let sigKvs : List (String × PyVal) :=
    match searchFirst (matchQuotedStrField "signal") cs with
    | Option.some s => [("signal", .str s)]
    | Option.none =>
      match searchFirst (matchKvStrField "signal") cs with
      | Option.some s => [("signal", .str s)]
      | Option.none => []
  let priceCap : Option String :=
    match searchFirst (matchQuotedNumField "price") cs with
    | Option.some s => Option.some s
    | Option.none => searchFirst (matchKvNumField "price") cs
  match priceCap with
  | Option.none => Except.ok (.dict (symKvs ++ sigKvs))
  | Option.some cap =>
    match pyFloatStr cap with
    | Option.none => Except.error ()
    | Option.some q => Except.ok (.dict (symKvs ++ sigKvs ++ [("price", .num q)]))

/-- Raw-body extraction (app.py lines 209-260): json.loads on the whole
body; on failure, json.loads on the first-to-last-brace substring; if the
result is still missing or falsy, the regex field extraction. -/
def rawExtract (raw : String) : Except Unit PyVal :=
  let cs := raw.toList
  let d₁ : Option PyVal :=
    match jsonLoads raw with
    | Option.some v => Option.some v
    | Option.none =>
      match braceSub cs with
      | Option.some sub =>
        match jsonLoads sub.asString with
        | Option.some v => Option.some v
        | Option.none => Option.none
      | Option.none => Option.none
  match d₁ with
  | Option.some v => if pyTruthy v then Except.ok v else regexExtract cs
  | Option.none => regexExtract cs

/-- Python membership k in data, as the validation on app.py line 277 uses
it: key membership for dicts, substring membership for strings, element
equality for lists; for the remaining types the operator raises TypeError,
modelled as Except.error. -/
def pyContains (data : PyVal) (k : String) : Except Unit Bool :=
  match data with
  | .dict kvs => Except.ok (lookupLast kvs k).isSome
  | .str s => Except.ok (substrOf k.toList s.toList)
  | .list xs =>
    Except.ok (xs.any (fun v => match v with | .str t => t == k | _ => false))
  | _ => Except.error ()

/-- Python subscription data with a string key: dict lookup, KeyError when
the key is absent, TypeError on every other type (strings and lists do not
take string indices).  Both errors are modelled as Except.error. -/
def pyGetItem (data : PyVal) (k : String) : Except Unit PyVal :=
  match data with
  | .dict kvs =>
    match lookupLast kvs k with
    | Option.some v => Except.ok v
    | Option.none => Except.error ()
  | _ => Except.error ()

/-- Python data.get of a key with a default, as on app.py lines 305-306;
on a non-dict the attribute access raises, modelled as Except.error. -/
def pyDictGetD (data : PyVal) (k : String) (d : PyVal) : Except Unit PyVal :=
  match data with
  | .dict kvs => Except.ok ((lookupLast kvs k).getD d)
  | _ => Except.error ()

/-- Strip leading and trailing whitespace from a character list, as
str.strip() does (ASCII whitespace fragment). -/
def stripChars (cs : List Char) : List Char :=
  ((cs.dropWhile pySpace).reverse.dropWhile pySpace).reverse

/-- The normalization applied to symbol and signal on app.py lines
293-294: upper-case, remove every double-quote character (str.replace of
a one-character pattern by the empty string is exactly a filter), strip
surrounding whitespace.  String conversion happens before via pyStr; case
mapping and stripping are modelled on their ASCII fragments. -/
def normalizeField (s : String) : String :=
  (stripChars ((s.toList.map Char.toUpper).filter (fun c => !(c == '"')))).asString

/-- The normalization the specification sentence describes: upper-case and
trim, with no other change.  Stated from the words of the spec, to compare
with normalizeField from the source. -/
def specUpperTrim (s : String) : String :=
  (stripChars (s.toList.map Char.toUpper)).asString

/-- The dictionary the handler builds from a form-encoded body (app.py
lines 200-206): the five known field names, absent ones as None, with the
literal defaults for strength and timeframe. -/
def formData (form : List (String × String)) : PyVal :=
  .dict
    [("symbol", match form.lookup "symbol" with
                | Option.some v => .str v
                | Option.none => .none),
      ("signal", match form.lookup "signal" with
                 | Option.some v => .str v
                 | Option.none => .none),
      ("price", match form.lookup "price" with
                | Option.some v => .str v
                | Option.none => .none),
      ("strength", match form.lookup "strength" with
                   | Option.some v => .str v
                   | Option.none => .num 8.5),
      ("timeframe", match form.lookup "timeframe" with
                    | Option.some v => .str v
                    | Option.none => .str "5m")]

/-- An inbound request to the webhook endpoint as the handler observes it:
the method, whether Flask classifies the body as JSON (and the parsed
value when it does), the form fields, and the raw body text.  Query
parameters are absent because the handler never reads them. -/
structure Req where
  isGet : Bool
  isJson : Bool
  jsonBody : PyVal
  form : List (String × String)
  rawText : String

/-- Behaviour of the storage collaborator for the single INSERT of one
request: no connection available, a successful insert returning the
assigned id, or a raised write error. -/
inductive Db where
  | noConn
  | ok (id : ℕ)
  | fail

/-- The signal_data record the handler assembles on app.py lines 308-318
(timestamp handling is out of scope; status and processed are the
constants active and false until storage). -/
structure SigData where
  symbol : String
  signal : String
  price : ℚ
  strength : ℚ
  timeframe : PyVal
  rawData : PyVal

/-- One row of the trading_signals table: the canonical fields together
with the full original payload (raw_data is a JSONB column of the same
row, so a canonical row and its payload are inserted by one statement). -/
structure SignalRow where
  id : ℕ
  symbol : String
  signal : String
  price : ℚ
  strength : ℚ
  timeframe : PyVal
  status : String
  processed : Bool
  rawData : PyVal

/-- The structured responses the handler can produce, tagged with the data
they carry.  getInfo is the GET instruction page; noData is the
could-not-extract response; missingFields lists the absent required keys;
badPrice is the invalid-price response; dbWarning is the
received-but-not-persisted response; success carries the assigned id;
dbError is the database-failure response; internal is the outermost
exception handler. -/
inductive Resp where
  | getInfo
  | noData
  | missingFields (missing : List String)
  | badPrice
  | dbWarning (sd : SigData)
  | success (id : ℕ) (sd : SigData)
  | dbError (sd : SigData)
  | internal

/-- The HTTP status code attached to each response form. -/
def Resp.code : Resp → ℕ
  | .getInfo => 200
  | .noData => 400
  | .missingFields _ => 400
  | .badPrice => 400
  | .dbWarning _ => 200
  | .success _ _ => 200
  | .dbError _ => 500
  | .internal => 500

/-- The status field of the JSON response body. -/
def Resp.statusField : Resp → String
  | .getInfo => "info"
  | .noData => "error"
  | .missingFields _ => "error"
  | .badPrice => "error"
  | .dbWarning _ => "warning"
  | .success _ _ => "success"
  | .dbError _ => "error"
  | .internal => "error"

/-- The storage step (app.py lines 322-385): without a connection the
handler answers with a warning and persists nothing; a successful INSERT
appends the one row (canonical fields and raw payload together) and
answers success; a raised write error is rolled back, leaving the table
unchanged, and answered with the structured database-error response. -/
def persistSignal (db : Db) (sd : SigData) (store : List SignalRow) :
    Resp × List SignalRow :=
  match db with
  | .noConn => (.dbWarning sd, store)
  | .ok i =>
    (.success i sd,
      store ++
        [⟨i, sd.symbol, sd.signal, sd.price, sd.strength, sd.timeframe,
          "active", false, sd.rawData⟩])
  | .fail => (.dbError sd, store)

/-- The /webhook handler (app.py lines 170-397) on one request, given the
storage behaviour for this call and the current table contents.  Internal
exceptions surface as the internal response through the outermost handler
(so in particular the uncaught float failure of the raw-text extraction,
see regexExtract). -/
def webhook (req : Req) (db : Db) (store : List SignalRow) :
    Resp × List SignalRow :=
  if req.isGet then (.getInfo, store)
  else
    let dataE : Except Unit PyVal :=
      if req.isJson then Except.ok req.jsonBody
      else if !req.form.isEmpty then Except.ok (formData req.form)
      else rawExtract req.rawText
    match dataE with
    | Except.error _ => (.internal, store)
    | Except.ok data =>
      if !pyTruthy data then (.noData, store)
      else
        match pyContains data "symbol", pyContains data "signal",
            pyContains data "price" with
        | Except.ok hs, Except.ok hg, Except.ok hp =>
          if !hs || !hg || !hp then
            (.missingFields
              ((if !hs then ["symbol"] else []) ++
                (if !hg then ["signal"] else []) ++
                (if !hp then ["price"] else [])), store)
          else
            match pyGetItem data "symbol", pyGetItem data "signal" with
            | Except.ok vs, Except.ok vg =>
              let symbol := normalizeField (pyStr vs)
              let signal := normalizeField (pyStr vg)
              match pyGetItem data "price" with
              | Except.ok vp =>
                (match pyFloat vp with
                 | Option.none => (.badPrice, store)
                 | Option.some price =>
                   match pyDictGetD data "strength" (.num 8.5) with
                   | Except.ok vst =>
                     (match pyFloat vst with
                      | Option.none => (.internal, store)
                      | Option.some strength =>
                        match pyDictGetD data "timeframe" (.str "5m") with
                        | Except.ok tf =>
                          persistSignal db
                            ⟨symbol, signal, price, strength, tf, data⟩ store
                        | Except.error _ => (.internal, store))
                   | Except.error _ => (.internal, store))
              | Except.error _ => (.badPrice, store)
            | _, _ => (.internal, store)
        | _, _, _ => (.internal, store)

/-- A dict with a successful lookup is nonempty. -/
theorem lookupLast_ne_nil {kvs : List (String × PyVal)} {k : String} {v : PyVal}
    (h : lookupLast kvs k = Option.some v) : kvs.isEmpty = false := by
  cases kvs with
  | nil => simp [lookupLast] at h
  | cons a l => rfl

/-- A form with a successful lookup is nonempty. -/
theorem formLookup_ne_nil {form : List (String × String)} {k : String} {v : String}
    (h : form.lookup k = Option.some v) : form.isEmpty = false := by
  cases form with
  | nil => simp [List.lookup] at h
  | cons a l => rfl

/-- Shared run lemma: a POST whose body Flask parsed as a JSON object with
present symbol, signal and parsable price entries and no strength or
timeframe entries reaches the storage step with the normalized record and
the defaults filled in. -/
theorem webhook_json_run (kvs : List (String × PyVal)) (vs vg vp : PyVal) (q : ℚ)
    (db : Db) (store : List SignalRow)
    (hs : lookupLast kvs "symbol" = Option.some vs)
    (hg : lookupLast kvs "signal" = Option.some vg)
    (hp : lookupLast kvs "price" = Option.some vp)
    (hq : pyFloat vp = Option.some q)
    (hst : lookupLast kvs "strength" = Option.none)
    (htf : lookupLast kvs "timeframe" = Option.none) :
    webhook ⟨false, true, .dict kvs, [], ""⟩ db store =
      persistSignal db
        ⟨normalizeField (pyStr vs), normalizeField (pyStr vg), q, 8.5, .str "5m",
          .dict kvs⟩ store := by
  have hne : kvs.isEmpty = false := lookupLast_ne_nil hs
  simp [webhook, pyContains, pyGetItem, pyDictGetD, pyTruthy, hne, hs, hg, hp, hq, hst,
    htf]
  simp [pyFloat]

/-- Claim C1, counterexample: a well-formed JSON body whose symbol value
contains a double-quote character is ingested with outcome success, but
the stored symbol has the quote removed, which the upper-case-and-trim
normalization that the claim states never does. -/
theorem json_upper_trim_only_cex :
    webhook
        ⟨false, true,
          .dict [("symbol", .str "btc\"x"), ("signal", .str "long"),
            ("price", .num 1)], [], ""⟩ (.ok 1) [] =
      (.success 1
        ⟨"BTCX", "LONG", 1, 8.5, .str "5m",
          .dict [("symbol", .str "btc\"x"), ("signal", .str "long"),
            ("price", .num 1)]⟩,
        [⟨1, "BTCX", "LONG", 1, 8.5, .str "5m", "active", false,
          .dict [("symbol", .str "btc\"x"), ("signal", .str "long"),
            ("price", .num 1)]⟩]) ∧
      "BTCX" ≠ specUpperTrim "btc\"x" :=
  ⟨rfl, by decide⟩

/-- Claim C1, amended: for a POST whose parsed JSON body is an object
carrying symbol, signal and a price that float() accepts, omitting
strength and timeframe, and whose write the store accepts, ingestion
answers success and stores symbol and signal upper-cased with
double-quote characters removed and surrounding whitespace stripped,
price as the parsed number, and the defaults 8.5 and 5m. -/
theorem json_success_normalization_defaults (kvs : List (String × PyVal))
    (vs vg vp : PyVal) (q : ℚ) (n : ℕ) (store : List SignalRow)
    (hs : lookupLast kvs "symbol" = Option.some vs)
    (hg : lookupLast kvs "signal" = Option.some vg)
    (hp : lookupLast kvs "price" = Option.some vp)
    (hq : pyFloat vp = Option.some q)
    (hst : lookupLast kvs "strength" = Option.none)
    (htf : lookupLast kvs "timeframe" = Option.none) :
    webhook ⟨false, true, .dict kvs, [], ""⟩ (.ok n) store =
      (.success n
        ⟨normalizeField (pyStr vs), normalizeField (pyStr vg), q, 8.5, .str "5m",
          .dict kvs⟩,
        store ++
          [⟨n, normalizeField (pyStr vs), normalizeField (pyStr vg), q, 8.5,
            .str "5m", "active", false, .dict kvs⟩]) :=
  (webhook_json_run kvs vs vg vp q (.ok n) store hs hg hp hq hst htf).trans rfl

/-- Claim C1, witness: the end-to-end example of the spec with a quoted
price string and lower-case fields. -/
theorem json_success_normalization_defaults_wit :
    webhook
        ⟨false, true,
          .dict [("symbol", .str "btcusdt"), ("signal", .str "long"),
            ("price", .str "50000.5")], [], ""⟩ (.ok 3) [] =
      (.success 3
        ⟨normalizeField (pyStr (.str "btcusdt")), normalizeField (pyStr (.str "long")),
          mkRat (Int.ofNat 500005) 10, 8.5, .str "5m",
          .dict [("symbol", .str "btcusdt"), ("signal", .str "long"),
            ("price", .str "50000.5")]⟩,
        [⟨3, normalizeField (pyStr (.str "btcusdt")),
          normalizeField (pyStr (.str "long")), mkRat (Int.ofNat 500005) 10, 8.5,
          .str "5m", "active", false,
          .dict [("symbol", .str "btcusdt"), ("signal", .str "long"),
            ("price", .str "50000.5")]⟩]) :=
  json_success_normalization_defaults
    [("symbol", .str "btcusdt"), ("signal", .str "long"), ("price", .str "50000.5")]
    (.str "btcusdt") (.str "long") (.str "50000.5") (mkRat (Int.ofNat 500005) 10) 3 []
    rfl rfl rfl rfl rfl rfl

/-- Claim C2, counterexample: a body whose price does not parse is
answered with the invalid-price client error and HTTP 400, nothing is
persisted, and the table is unchanged; there is no degraded record with
price zero. -/
theorem unparsable_price_rejected_cex :
    webhook
        ⟨false, true,
          .dict [("symbol", .str "BTC"), ("signal", .str "LONG"),
            ("price", .str "abc")], [], ""⟩ (.ok 1) [] =
      (.badPrice, []) ∧
      Resp.code .badPrice = 400 ∧ Resp.statusField .badPrice = "error" :=
  ⟨rfl, rfl, rfl⟩

/-- Claim C2, amended: an input mapping whose price entry is present but
rejected by float() makes the handler answer the invalid-price error
response and persist nothing, whatever the storage would have done. -/
theorem unparsable_price_rejected (kvs : List (String × PyVal)) (vs vg vp : PyVal)
    (db : Db) (store : List SignalRow)
    (hs : lookupLast kvs "symbol" = Option.some vs)
    (hg : lookupLast kvs "signal" = Option.some vg)
    (hp : lookupLast kvs "price" = Option.some vp)
    (hq : pyFloat vp = Option.none) :
    webhook ⟨false, true, .dict kvs, [], ""⟩ db store = (.badPrice, store) := by
  have hne : kvs.isEmpty = false := lookupLast_ne_nil hs
  simp [webhook, pyContains, pyGetItem, pyDictGetD, pyTruthy, hne, hs, hg, hp, hq]

/-- Claim C2, witness: a non-numeric price string at a concrete request. -/
theorem unparsable_price_rejected_wit :
    webhook
        ⟨false, true,
          .dict [("symbol", .str "ETH"), ("signal", .str "SHORT"),
            ("price", .str "n/a")], [], ""⟩ .noConn [] = (.badPrice, []) :=
  unparsable_price_rejected
    [("symbol", .str "ETH"), ("signal", .str "SHORT"), ("price", .str "n/a")]
    (.str "ETH") (.str "SHORT") (.str "n/a") .noConn [] rfl rfl rfl rfl

/-- Claim C3, counterexample: a body with ticker, signal and price but
without symbol is rejected with the missing-required-fields error; the
ticker value is never consulted. -/
theorem ticker_alias_ignored_cex :
    webhook
        ⟨false, true,
          .dict [("ticker", .str "btc"), ("signal", .str "long"),
            ("price", .num 1)], [], ""⟩ (.ok 1) [] =
      (.missingFields ["symbol"], []) ∧
      Resp.code (.missingFields ["symbol"]) = 400 :=
  ⟨rfl, rfl⟩

/-- Claim C3, amended: when the symbol key is absent the handler answers
the missing-fields client error naming symbol and persists nothing, even
when a non-null ticker entry is present: the handler has no alias
resolution. -/
theorem missing_symbol_rejected_despite_ticker (kvs : List (String × PyVal))
    (tv vg vp : PyVal) (db : Db) (store : List SignalRow)
    (ht : lookupLast kvs "ticker" = Option.some tv)
    (hs : lookupLast kvs "symbol" = Option.none)
    (hg : lookupLast kvs "signal" = Option.some vg)
    (hp : lookupLast kvs "price" = Option.some vp) :
    webhook ⟨false, true, .dict kvs, [], ""⟩ db store =
      (.missingFields ["symbol"], store) := by
  have hne : kvs.isEmpty = false := lookupLast_ne_nil ht
  simp [webhook, pyContains, pyTruthy, hne, hs, hg, hp]

/-- Claim C3, witness: concrete ticker-instead-of-symbol request. -/
theorem missing_symbol_rejected_despite_ticker_wit :
    webhook
        ⟨false, true,
          .dict [("ticker", .str "ethusdt"), ("signal", .str "short"),
            ("price", .num 2800)], [], ""⟩ (.ok 7) [] =
      (.missingFields ["symbol"], []) :=
  missing_symbol_rejected_despite_ticker
    [("ticker", .str "ethusdt"), ("signal", .str "short"), ("price", .num 2800)]
    (.str "ethusdt") (.str "short") (.num 2800) (.ok 7) [] rfl rfl rfl rfl

/-- Claim C4: the extraction chain raises on the raw body price=.. ; the
dots-only capture of the price regex is handed to float(), which raises a
ValueError that no strategy catches (the try statement opened at app.py
line 210 has no except clause at all, so the committed file is a Python
SyntaxError), and under the intended control flow the request ends in the
internal-error 500 response instead of an empty mapping. -/
theorem raw_price_float_raises :
    rawExtract "price=.." = Except.error () ∧
      webhook ⟨false, false, .none, [], "price=.."⟩ .noConn [] = (.internal, []) ∧
      Resp.code .internal = 500 :=
  ⟨rfl, rfl, rfl⟩

/-- Claim C5, counterexample: a whitespace-only symbol normalizes to the
empty string and is persisted that way with outcome success: no
rejection and no UNKNOWN sentinel. -/
theorem empty_symbol_persisted_cex :
    webhook
        ⟨false, true,
          .dict [("symbol", .str " "), ("signal", .str "LONG"), ("price", .num 1)],
          [], ""⟩ (.ok 5) [] =
      (.success 5
        ⟨"", "LONG", 1, 8.5, .str "5m",
          .dict [("symbol", .str " "), ("signal", .str "LONG"), ("price", .num 1)]⟩,
        [⟨5, "", "LONG", 1, 8.5, .str "5m", "active", false,
          .dict [("symbol", .str " "), ("signal", .str "LONG"),
            ("price", .num 1)]⟩]) :=
  rfl

/-- Claim C5, amended: the symbol and signal of a persisted row are
exactly the upper-cased, quote-stripped, whitespace-trimmed string of the
corresponding input entries; the handler guards only key presence, so
these stored fields can be the empty string, and no UNKNOWN sentinel
exists anywhere in the flow. -/
theorem persisted_fields_are_normalized (kvs : List (String × PyVal))
    (vs vg vp : PyVal) (q : ℚ) (n : ℕ) (store : List SignalRow)
    (hs : lookupLast kvs "symbol" = Option.some vs)
    (hg : lookupLast kvs "signal" = Option.some vg)
    (hp : lookupLast kvs "price" = Option.some vp)
    (hq : pyFloat vp = Option.some q)
    (hst : lookupLast kvs "strength" = Option.none)
    (htf : lookupLast kvs "timeframe" = Option.none) :
    (webhook ⟨false, true, .dict kvs, [], ""⟩ (.ok n) store).2 =
      store ++
        [⟨n, normalizeField (pyStr vs), normalizeField (pyStr vg), q, 8.5,
          .str "5m", "active", false, .dict kvs⟩] := by
  rw [webhook_json_run kvs vs vg vp q (.ok n) store hs hg hp hq hst htf]
  rfl

/-- Claim C5, witness: concrete request whose fields carry surrounding
whitespace and a quote. -/
theorem persisted_fields_are_normalized_wit :
    (webhook
        ⟨false, true,
          .dict [("symbol", .str " eth\" "), ("signal", .str " short "),
            ("price", .num 2)], [], ""⟩ (.ok 9) []).2 =
      [⟨9, normalizeField (pyStr (.str " eth\" ")),
        normalizeField (pyStr (.str " short ")), 2, 8.5, .str "5m", "active", false,
        .dict [("symbol", .str " eth\" "), ("signal", .str " short "),
          ("price", .num 2)]⟩] :=
  persisted_fields_are_normalized
    [("symbol", .str " eth\" "), ("signal", .str " short "), ("price", .num 2)]
    (.str " eth\" ") (.str " short ") (.num 2) 2 9 [] rfl rfl rfl rfl rfl rfl

/-- Claim C6, counterexample: the empty-body response is the
could-not-extract response, whose HTTP status is 400 and whose status
field reads error; the claim calls this outcome not an error condition. -/
theorem empty_body_error_status_cex :
    webhook ⟨false, false, .none, [], ""⟩ .noConn [] = (.noData, []) ∧
      Resp.code .noData = 400 ∧ Resp.statusField .noData = "error" :=
  ⟨rfl, rfl, rfl⟩

/-- Claim C6, amended: a POST with empty body and no JSON or form data
makes extraction produce the empty mapping, and the handler answers the
structured could-not-extract response without raising and without
touching the table; that response is reported as a client error with
HTTP 400 and status error, not as a neutral outcome. -/
theorem empty_body_no_data (db : Db) (store : List SignalRow) :
    webhook ⟨false, false, .none, [], ""⟩ db store = (.noData, store) ∧
      rawExtract "" = Except.ok (.dict []) :=
  ⟨rfl, rfl⟩

/-- Claim C7, counterexample: a double-encoded JSON body parses as a JSON
string literal, so extraction returns the inner text as a string value,
not the mapping that parsing the inner content directly yields. -/
theorem double_encoded_not_parsed_cex :
    rawExtract "\"\x7b\\\"symbol\\\": 1, \\\"signal\\\": 2, \\\"price\\\": 3\x7d\"" =
        Except.ok (.str "\x7b\"symbol\": 1, \"signal\": 2, \"price\": 3\x7d") ∧
      jsonLoads "\x7b\"symbol\": 1, \"signal\": 2, \"price\": 3\x7d" =
        Option.some
          (.dict
            [("symbol", .num (mkRat (Int.ofNat 1) 1)),
              ("signal", .num (mkRat (Int.ofNat 2) 1)),
              ("price", .num (mkRat (Int.ofNat 3) 1))]) ∧
      PyVal.str "\x7b\"symbol\": 1, \"signal\": 2, \"price\": 3\x7d" ≠
        PyVal.dict
          [("symbol", .num (mkRat (Int.ofNat 1) 1)),
            ("signal", .num (mkRat (Int.ofNat 2) 1)),
            ("price", .num (mkRat (Int.ofNat 3) 1))] :=
  ⟨rfl, rfl, fun h => PyVal.noConfusion h⟩

/-- Claim C7, amended: for a raw body that json.loads reads as a nonempty
JSON string literal, extraction stops at that first strategy and returns
the decoded inner text as a string value; no quote-stripping retry
exists, so the inner document is never parsed into a mapping. -/
theorem double_encoded_yields_inner_text (raw s : String)
    (h : jsonLoads raw = Option.some (.str s)) (hne : s ≠ "") :
    rawExtract raw = Except.ok (.str s) := by
  have hs : s.isEmpty = false := by
    cases he : s.isEmpty with
    | false => rfl
    | true => exact absurd ((String.isEmpty_iff s).mp he) hne
  simp [rawExtract, h, pyTruthy, hs]

/-- Claim C7, witness: a concrete double-encoded body. -/
theorem double_encoded_yields_inner_text_wit :
    rawExtract "\"abc\"" = Except.ok (.str "abc") :=
  double_encoded_yields_inner_text "\"abc\"" "abc" rfl (by decide)

/-- Claim C8: when the storage write raises, the handler answers the
structured database-error response with HTTP 500 and the table is exactly
as before, so the canonical fields and the raw payload, which one INSERT
writes as a single row, exist together or not at all. -/
theorem db_write_failure_atomic (kvs : List (String × PyVal)) (vs vg vp : PyVal)
    (q : ℚ) (store : List SignalRow)
    (hs : lookupLast kvs "symbol" = Option.some vs)
    (hg : lookupLast kvs "signal" = Option.some vg)
    (hp : lookupLast kvs "price" = Option.some vp)
    (hq : pyFloat vp = Option.some q)
    (hst : lookupLast kvs "strength" = Option.none)
    (htf : lookupLast kvs "timeframe" = Option.none) :
    webhook ⟨false, true, .dict kvs, [], ""⟩ .fail store =
      (.dbError
        ⟨normalizeField (pyStr vs), normalizeField (pyStr vg), q, 8.5, .str "5m",
          .dict kvs⟩, store) ∧
      Resp.code
          (.dbError
            ⟨normalizeField (pyStr vs), normalizeField (pyStr vg), q, 8.5,
              .str "5m", .dict kvs⟩) = 500 :=
  ⟨(webhook_json_run kvs vs vg vp q .fail store hs hg hp hq hst htf).trans rfl, rfl⟩

/-- Claim C8, witness: concrete request against failing storage, with a
nonempty table to exhibit that nothing is appended or lost. -/
theorem db_write_failure_atomic_wit :
    webhook
        ⟨false, true,
          .dict [("symbol", .str "BTC"), ("signal", .str "LONG"), ("price", .num 4)],
          [], ""⟩ .fail
        [⟨1, "A", "B", 1, 1, .str "1m", "active", false, .none⟩] =
      (.dbError
        ⟨normalizeField (pyStr (.str "BTC")), normalizeField (pyStr (.str "LONG")),
          4, 8.5, .str "5m",
          .dict [("symbol", .str "BTC"), ("signal", .str "LONG"),
            ("price", .num 4)]⟩,
        [⟨1, "A", "B", 1, 1, .str "1m", "active", false, .none⟩]) ∧
      Resp.code
          (.dbError
            ⟨normalizeField (pyStr (.str "BTC")),
              normalizeField (pyStr (.str "LONG")), 4, 8.5, .str "5m",
              .dict [("symbol", .str "BTC"), ("signal", .str "LONG"),
                ("price", .num 4)]⟩) = 500 :=
  db_write_failure_atomic
    [("symbol", .str "BTC"), ("signal", .str "LONG"), ("price", .num 4)]
    (.str "BTC") (.str "LONG") (.num 4) 4
    [⟨1, "A", "B", 1, 1, .str "1m", "active", false, .none⟩] rfl rfl rfl rfl rfl rfl

/-- Claim C9: a GET request is answered with the instruction response and
HTTP 200, and the stored table is unchanged: the handler returns before
any extraction, validation or storage code runs. -/
theorem get_request_info_only (req : Req) (db : Db) (store : List SignalRow)
    (h : req.isGet = true) :
    webhook req db store = (.getInfo, store) ∧ Resp.code .getInfo = 200 :=
  ⟨by simp [webhook, h], rfl⟩

/-- Claim C9, witness: a GET carrying junk in every other slot, against a
failing store with a nonempty table. -/
theorem get_request_info_only_wit :
    webhook ⟨true, true, .str "junk", [("symbol", "X")], "garbage"⟩ .fail
        [⟨1, "A", "B", 1, 1, .str "1m", "active", false, .none⟩] =
      (.getInfo, [⟨1, "A", "B", 1, 1, .str "1m", "active", false, .none⟩]) ∧
      Resp.code .getInfo = 200 :=
  get_request_info_only ⟨true, true, .str "junk", [("symbol", "X")], "garbage"⟩ .fail
    [⟨1, "A", "B", 1, 1, .str "1m", "active", false, .none⟩] rfl

/-- Claim C10, counterexample: a form POST with one field that omits
symbol and price passes the required-field validation (the form branch
inserts every key, absent ones as None), but float(None) then raises and
the request is answered with the invalid-price 400 error, not persisted
with outcome success. -/
theorem form_omitted_price_rejected_cex :
    webhook ⟨false, false, .none, [("signal", "LONG")], ""⟩ (.ok 1) [] =
      (.badPrice, []) ∧
      Resp.code .badPrice = 400 :=
  ⟨rfl, rfl⟩

/-- Claim C10, amended: a form POST that omits symbol but carries a
signal, a price that float() accepts, and no strength or timeframe
fields, passes validation (the omitted symbol key is inserted with value
None) and is persisted with outcome success and symbol equal to the
literal NONE, the upper-casing of the Python string of None. -/
theorem form_missing_symbol_persisted_none (form : List (String × String))
    (jb : PyVal) (rt : String) (sg ps : String) (q : ℚ) (n : ℕ)
    (store : List SignalRow)
    (hsym : form.lookup "symbol" = Option.none)
    (hsg : form.lookup "signal" = Option.some sg)
    (hps : form.lookup "price" = Option.some ps)
    (hq : pyFloatStr ps = Option.some q)
    (hstr : form.lookup "strength" = Option.none)
    (htf : form.lookup "timeframe" = Option.none) :
    webhook ⟨false, false, jb, form, rt⟩ (.ok n) store =
      (.success n ⟨"NONE", normalizeField sg, q, 8.5, .str "5m", formData form⟩,
        store ++
          [⟨n, "NONE", normalizeField sg, q, 8.5, .str "5m", "active", false,
            formData form⟩]) := by
  have hne : form.isEmpty = false := formLookup_ne_nil hsg
  simp [webhook, hne, formData, hsym, hsg, hps, hstr, htf, pyContains, pyGetItem,
    pyDictGetD, pyTruthy, lookupLast, pyStr, pyFloat, hq, persistSignal]
  decide

/-- Claim C10, witness: the spec example form body without its symbol
field. -/
theorem form_missing_symbol_persisted_none_wit :
    webhook ⟨false, false, .none, [("signal", "SHORT"), ("price", "2800")], ""⟩
        (.ok 2) [] =
      (.success 2
        ⟨"NONE", normalizeField "SHORT", mkRat (Int.ofNat 2800) 1, 8.5, .str "5m",
          formData [("signal", "SHORT"), ("price", "2800")]⟩,
        [⟨2, "NONE", normalizeField "SHORT", mkRat (Int.ofNat 2800) 1, 8.5,
          .str "5m", "active", false,
          formData [("signal", "SHORT"), ("price", "2800")]⟩]) :=
  form_missing_symbol_persisted_none [("signal", "SHORT"), ("price", "2800")]
    .none "" "SHORT" "2800" (mkRat (Int.ofNat 2800) 1) 2 [] rfl rfl rfl rfl rfl rfl

end TVProxy
